import Mathlib

/-!
Shallow embedding of the clean-tech-radar repository.

Sources embedded here:
- `src/main.go` : the Go backend; `RadarItem`, `RadarData`, `loadRadarData`.
- `src/static/radar.js` : the front-end layout engine; `RINGS`, `QUADRANTS`,
  `LAYOUT`, the d3 linear radius scale, `prepareNodesForSimulation`, the
  `avoidLabels` custom force body, `createList`, and `drawRadar`.

JavaScript numbers are modelled by `ℝ`; `Array.prototype.indexOf` returning
`-1` for a missing element is modelled by `List.findIdx?` returning `none`.
-/

/-- Technology radar item (src/main.go, `RadarItem`; the same JSON object is
consumed by radar.js). -/
structure RadarItem where
  label : String
  quadrant : String
  ring : String
  moved : Bool
  description : String
  owners : String
  deriving DecidableEq

/-- The complete radar data snapshot (src/main.go, `RadarData`). -/
structure RadarData where
  lastModified : String
  items : List RadarItem
  deriving DecidableEq

/-- Application error with HTTP status code (src/main.go, `AppError`).
The wrapped underlying error is modelled by the message alone. -/
structure AppError where
  code : ℕ
  message : String
  deriving DecidableEq

/-- Ring names, radar.js line 5: `const RINGS = ['Not Recommended', 'In
Discovery', 'Adopted']`. -/
def RINGS : List String := ["Not Recommended", "In Discovery", "Adopted"]

/-- Quadrant names, radar.js line 6. -/
def QUADRANTS : List String :=
  ["Platforms", "Tools", "Programming Languages & Frameworks", "Techniques"]

namespace LAYOUT

/-- radar.js `LAYOUT.nodeCollideRadius = 35`. -/
noncomputable def nodeCollideRadius : ℝ := 35

/-- radar.js `LAYOUT.forceStrength = 0.05`. -/
noncomputable def forceStrength : ℝ := 0.05

/-- radar.js `LAYOUT.simulationTicks = 200`. -/
def simulationTicks : ℕ := 200

/-- radar.js `LAYOUT.ringLabelExclusionRadius = 40`. -/
noncomputable def ringLabelExclusionRadius : ℝ := 40

end LAYOUT

/-- The d3 linear scale `d3.scaleLinear().domain([0, RINGS.length]).range([0,
radius])` built in `drawRadarStructure` (radar.js line 394): linear
interpolation sending `v` to `v / RINGS.length * radius`. -/
noncomputable def radiusScale (radius : ℝ) (v : ℝ) : ℝ :=
  v / (RINGS.length : ℝ) * radius

/-- The angular width of one quadrant slice, radar.js line 397:
`const angleSlice = (Math.PI * 2) / QUADRANTS.length`. -/
noncomputable def angleSlice : ℝ := (Real.pi * 2) / (QUADRANTS.length : ℝ)

/-- A node prepared for the d3 force simulation (radar.js
`prepareNodesForSimulation`).  `vx`/`vy` are the velocity fields d3
initializes to zero; `id` keeps the array index behind the JS
`node-${index}` string id. -/
structure SimNode where
  item : RadarItem
  id : ℕ
  x : ℝ
  y : ℝ
  vx : ℝ
  vy : ℝ
  targetX : ℝ
  targetY : ℝ
  targetRadius : ℝ
  valid : Bool

/-- The target angle computed in `prepareNodesForSimulation` (radar.js lines
495-497): `baseAngle = quadrantIndex * angleSlice - Math.PI / 2`,
`angleOffset = (angleSlice * 0.1) + ((index / data.length) * (angleSlice *
0.8))`, `targetAngle = baseAngle + angleOffset`. -/
noncomputable def targetAngle (total index quadrantIndex : ℕ) : ℝ :=
  let baseAngle := (quadrantIndex : ℝ) * angleSlice - Real.pi / 2
  let angleOffset :=
    angleSlice * 0.1 + ((index : ℝ) / (total : ℝ)) * (angleSlice * 0.8)
  baseAngle + angleOffset

/-- The body of the `data.map((item, index) => ...)` callback in
`prepareNodesForSimulation` (radar.js lines 483-511).  A missing
`indexOf` result (`=== -1` in JS) is the `none` branch, producing the
degenerate invalid node `{x: 0, y: 0, targetX: 0, targetY: 0, valid:
false}`. -/
noncomputable def mapNode (radius : ℝ) (total index : ℕ) (item : RadarItem) :
    SimNode :=
  match RINGS.findIdx? (· = item.ring), QUADRANTS.findIdx? (· = item.quadrant) with
  | some ringIndex, some quadrantIndex =>
    let ringIndexForScaleOuter := (RINGS.length : ℝ) - (ringIndex : ℝ)
    let ringIndexForScaleInner := (RINGS.length : ℝ) - ((ringIndex : ℝ) + 1)
    let tR :=
      (radiusScale radius ringIndexForScaleOuter
        + radiusScale radius ringIndexForScaleInner) / 2
    let tA := targetAngle total index quadrantIndex
    let tX := Real.cos tA * tR
    let tY := Real.sin tA * tR
    { item := item, id := index, x := tX, y := tY, vx := 0, vy := 0,
      targetX := tX, targetY := tY, targetRadius := tR, valid := true }
  | _, _ =>
    { item := item, id := index, x := 0, y := 0, vx := 0, vy := 0,
      targetX := 0, targetY := 0, targetRadius := 0, valid := false }

/-- radar.js `prepareNodesForSimulation` (lines 482-513): map each item with
its index to a node, then `.filter(node => node.valid)`. -/
noncomputable def prepareNodesForSimulation (radius : ℝ)
    (data : List RadarItem) : List SimNode :=
  ((data.enum).map (fun p => mapNode radius data.length p.1 p.2)).filter
    (fun n => n.valid)

/-- An item has a recognized status and category: its ring is one of `RINGS`
and its quadrant one of `QUADRANTS` (the validity test of
`prepareNodesForSimulation`, stated by membership). -/
def recognized (it : RadarItem) : Bool :=
  RINGS.contains it.ring && QUADRANTS.contains it.quadrant

/-- The items rendered by the list view `createList` (radar.js lines
283-321): for each quadrant of `QUADRANTS` in order, the items of the input
whose quadrant matches, in input order.  (Empty quadrant groups only skip a
heading, not any item.) -/
def createListItems (data : List RadarItem) : List RadarItem :=
  (QUADRANTS.map (fun q => data.filter (fun it => it.quadrant = q))).flatten

/-- JavaScript `Math.atan2(y, x)`, modelled by the argument of the complex
number `x + y·i` (both give the angle of `(x, y)` in `(-π, π]`, and both
send the origin to `0`). -/
noncomputable def atan2 (y x : ℝ) : ℝ := Complex.arg ⟨x, y⟩

/-- One iteration of the loop body of the custom `avoidLabels` force
(radar.js lines 521-534), read as acting on a node `d`: if the node is
within `LAYOUT.ringLabelExclusionRadius` of the label anchor, the velocity
increment steers it toward the point at radius `ringRadius =
sqrt(targetX² + targetY²)` and angle `atan2(y, x) + 0.1`; otherwise
nothing is added. -/
noncomputable def labelNudge (d : SimNode) (labelPos : ℝ × ℝ) : ℝ × ℝ :=
  let dx := d.x - labelPos.1
  let dy := d.y - labelPos.2
  let distance := Real.sqrt (dx * dx + dy * dy)
  if distance < LAYOUT.ringLabelExclusionRadius then
    let angle := atan2 d.y d.x
    let ringRadius := Real.sqrt (d.targetX * d.targetX + d.targetY * d.targetY)
    let newAngle := angle + 0.1
    ((Real.cos newAngle * ringRadius - d.x) * 0.05,
     (Real.sin newAngle * ringRadius - d.y) * 0.05)
  else (0, 0)

/-- The whole `for (const labelPos of ringLabelPositions)` loop of the
`avoidLabels` force: the velocity increments of the individual anchors
accumulate (no increment depends on the anchor beyond its distance gate,
and `d.x`/`d.y` are not modified inside the loop). -/
noncomputable def avoidLabelsForce (labelPositions : List (ℝ × ℝ))
    (d : SimNode) : ℝ × ℝ :=
  labelPositions.foldl
    (fun v lp => (v.1 + (labelNudge d lp).1, v.2 + (labelNudge d lp).2))
    (0, 0)

/-- Modelled from the spec: the d3-force default alpha decay
`1 - alphaMin^(1 / 300)` with `alphaMin = 0.001`; the d3 library internals
are not part of this repository. -/
noncomputable def alphaDecayValue : ℝ := 1 - (0.001 : ℝ) ^ ((1 : ℝ) / 300)

/-- Modelled from the spec: the d3-force default velocity decay factor
(velocities are multiplied by `0.6` each tick). -/
noncomputable def velocityDecayFactor : ℝ := 0.6

/-- Modelled from the spec: the `forceX`/`forceY` pull toward the target
position with strength `LAYOUT.forceStrength` (radar.js lines 519-520);
d3 adds `(target - x) * strength * alpha` to the velocity. -/
noncomputable def applyTargetForce (alpha : ℝ) (d : SimNode) : SimNode :=
  { d with
    vx := d.vx + (d.targetX - d.x) * LAYOUT.forceStrength * alpha,
    vy := d.vy + (d.targetY - d.y) * LAYOUT.forceStrength * alpha }

/-- Modelled from the spec: the mutual no-overlap constraint of
`d3.forceCollide().radius(LAYOUT.nodeCollideRadius)` (radar.js line 518),
as a deterministic pairwise separation: any other node closer (at the
anticipated positions `x + vx`) than twice the collide radius pushes this
node half the overlap away along the separating direction. -/
noncomputable def collideDelta (nodes : List SimNode) (d : SimNode) : ℝ × ℝ :=
  nodes.foldl
    (fun v o =>
      if o.id = d.id then v
      else
        let dx := (d.x + d.vx) - (o.x + o.vx)
        let dy := (d.y + d.vy) - (o.y + o.vy)
        let l := Real.sqrt (dx * dx + dy * dy)
        let r := LAYOUT.nodeCollideRadius + LAYOUT.nodeCollideRadius
        if 0 < l ∧ l < r then
          (v.1 + dx / l * (r - l) / 2, v.2 + dy / l * (r - l) / 2)
        else v)
    (0, 0)

/-- Modelled from the spec: one tick of the relaxation — collision
separation, pull toward the target, label avoidance, then velocity-decayed
integration, in the order the forces are registered in `positionNodes`. -/
noncomputable def tickOnce (labelPositions : List (ℝ × ℝ)) (alpha : ℝ)
    (nodes : List SimNode) : List SimNode :=
  let afterCollide := nodes.map (fun d =>
    let c := collideDelta nodes d
    { d with vx := d.vx + c.1, vy := d.vy + c.2 })
  let afterTarget := afterCollide.map (applyTargetForce alpha)
  let afterLabels := afterTarget.map (fun d =>
    let c := avoidLabelsForce labelPositions d
    { d with vx := d.vx + c.1, vy := d.vy + c.2 })
  afterLabels.map (fun d =>
    let vx := d.vx * velocityDecayFactor
    let vy := d.vy * velocityDecayFactor
    { d with vx := vx, vy := vy, x := d.x + vx, y := d.y + vy })

/-- Modelled from the spec: `n` simulation ticks with the d3 alpha schedule
`alpha += (alphaTarget - alpha) * alphaDecay` (alphaTarget is 0 here, the
simulation being stopped and ticked manually). -/
noncomputable def runTicks (labelPositions : List (ℝ × ℝ)) :
    ℕ → ℝ → List SimNode → List SimNode
  | 0, _, nodes => nodes
  | n + 1, alpha, nodes =>
    let alphaNext := alpha + (0 - alpha) * alphaDecayValue
    runTicks labelPositions n alphaNext (tickOnce labelPositions alphaNext nodes)

/-- radar.js `positionNodes` (lines 516-540): build the stopped simulation
with the collide, x, y and avoidLabels forces and run
`simulation.tick(LAYOUT.simulationTicks)`; the relaxation internals are
modelled from the spec (the d3 library is not part of this repository). -/
noncomputable def positionNodes (labelPositions : List (ℝ × ℝ))
    (nodes : List SimNode) : List SimNode :=
  runTicks labelPositions LAYOUT.simulationTicks 1 nodes

/-- radar.js `drawRadar` (lines 607-634), restricted to the layout pipeline:
empty data clears the SVG and returns; a non-positive radius aborts before
any node preparation; an empty prepared node list aborts; otherwise the
relaxed node positions are produced.  `none` models "nothing drawn, no
positioned output"; no exception is ever raised. -/
noncomputable def drawRadar (radius : ℝ) (data : List RadarItem)
    (labelPositions : List (ℝ × ℝ)) : Option (List SimNode) :=
  if data.isEmpty then none
  else if radius ≤ 0 then none
  else
    let nodes := prepareNodesForSimulation radius data
    if nodes.isEmpty then none
    else some (positionNodes labelPositions nodes)

/-- The full layout pass of one redraw: target assignment
(`prepareNodesForSimulation`) followed by the 200-tick relaxation
(`positionNodes`). -/
noncomputable def layoutPass (radius : ℝ) (labelPositions : List (ℝ × ℝ))
    (data : List RadarItem) : List SimNode :=
  positionNodes labelPositions (prepareNodesForSimulation radius data)

/-- A parsed YAML value, as `gopkg.in/yaml.v3` produces inside
`map[string]interface{}` (src/main.go `loadRadarData`): strings, booleans,
numbers, sequences, string-keyed mappings, or null. -/
inductive YamlValue where
  | str (s : String)
  | bool (b : Bool)
  | int (n : Int)
  | seq (xs : List YamlValue)
  | map (entries : List (String × YamlValue))
  | null

/-- Go type assertion `itemMap[key].(string)` with the zero value `""` on a
missing key or a non-string value (src/main.go lines 77-94). -/
def getStringField (entries : List (String × YamlValue)) (key : String) :
    String :=
  match entries.lookup key with
  | some (YamlValue.str s) => s
  | _ => ""

/-- Go type assertion `itemMap[key].(bool)` with the zero value `false` on a
missing key or a non-bool value (src/main.go lines 86-88). -/
def getBoolField (entries : List (String × YamlValue)) (key : String) : Bool :=
  match entries.lookup key with
  | some (YamlValue.bool b) => b
  | _ => false

/-- The per-item field extraction of `loadRadarData` (src/main.go lines
75-95): each field of `RadarItem` from the item mapping, defaulting to its
zero value. -/
def parseRadarItem (entries : List (String × YamlValue)) : RadarItem :=
  { label := getStringField entries ("Label"),
    quadrant := getStringField entries ("Quadrant"),
    ring := getStringField entries ("Ring"),
    moved := getBoolField entries ("Moved"),
    description := getStringField entries ("Description"),
    owners := getStringField entries ("Owners") }

/-- The `Items` loop of `loadRadarData` (src/main.go lines 72-99): walk the
raw sequence, appending a parsed item for every entry that is itself a
mapping and silently skipping every other entry. -/
def parseItemsLoop : List YamlValue → List RadarItem → List RadarItem
  | [], acc => acc
  | v :: rest, acc =>
    match v with
    | YamlValue.map entries => parseItemsLoop rest (acc ++ [parseRadarItem entries])
    | _ => parseItemsLoop rest acc

/-- src/main.go `loadRadarData` (lines 50-102).  The filesystem and the YAML
parser are outside the program: the input `none` models an unreadable data
file, `some none` a file whose content fails to unmarshal into a
string-keyed mapping, and `some (some m)` a successfully parsed mapping
`m`.  The Go function returns the pair `(RadarData, error)`; `error` is
modelled by `Option AppError` (`http.StatusInternalServerError` is 500). -/
def loadRadarData (file : Option (Option (List (String × YamlValue)))) :
    RadarData × Option AppError :=
  match file with
  | none => (⟨"", []⟩, some ⟨500, "Failed to read radar data"⟩)
  | some none => (⟨"", []⟩, some ⟨500, "Failed to parse radar data"⟩)
  | some (some yamlMap) =>
    let lastModified :=
      match yamlMap.lookup ("LastModified") with
      | some (YamlValue.str s) => s
      | _ => ""
    let items :=
      match yamlMap.lookup ("Items") with
      | some (YamlValue.seq rawItems) => parseItemsLoop rawItems []
      | _ => []
    (⟨lastModified, items⟩, none)

/-- The raw entries of the `Items` key of a parsed mapping (empty when the
key is absent or not a sequence), used to state what `loadRadarData`
returns on success. -/
def itemsEntries (yamlMap : List (String × YamlValue)) : List YamlValue :=
  match yamlMap.lookup ("Items") with
  | some (YamlValue.seq xs) => xs
  | _ => []

/-- Whether a YAML value is itself a mapping. -/
def isMapping : YamlValue → Bool
  | YamlValue.map _ => true
  | _ => false

/-- The entries of a YAML mapping value (empty for non-mappings). -/
def mappingEntries : YamlValue → List (String × YamlValue)
  | YamlValue.map entries => entries
  | _ => []

/-- A concrete valid item used by the witnesses: recognized quadrant
`Platforms` and recognized ring `Adopted`. -/
def itemAdoptedPlatform : RadarItem :=
  ⟨"Kubernetes", "Platforms", "Adopted", false, "", ""⟩

/-- A concrete item with a recognized quadrant but the unrecognized ring
`Retired`. -/
def itemRetired : RadarItem :=
  ⟨"OldTech", "Platforms", "Retired", false, "", ""⟩

/-- A concrete item with the unrecognized quadrant `Foo` and a recognized
ring. -/
def itemFooQuadrant : RadarItem :=
  ⟨"Mystery", "Foo", "Adopted", false, "", ""⟩

/-- A concrete parsed YAML mapping used by the C10 witness: a
`LastModified` string and an `Items` sequence holding one junk scalar and
one item mapping. -/
def sampleYamlMap : List (String × YamlValue) :=
  [("LastModified", YamlValue.str "2024-01-01"),
   ("Items", YamlValue.seq
     [YamlValue.str "junk",
      YamlValue.map [("Label", YamlValue.str "K8s"),
                     ("Quadrant", YamlValue.str "Platforms"),
                     ("Ring", YamlValue.str "Adopted"),
                     ("Moved", YamlValue.bool true)]])]

/-- A concrete mid-relaxation node used by the C6 witness: the prepared
node of `itemAdoptedPlatform` (radius 3) after the relaxation has moved it
to the current position `(1, 2)` with some residual velocity — the target
fields are untouched, as on every simulation tick. -/
noncomputable def displacedNode : SimNode :=
  { mapNode 3 1 0 itemAdoptedPlatform with x := 1, y := 2, vx := 0.5, vy := -0.25 }

lemma findIdx?_some_bound {α : Type} {p : α → Bool} :
    ∀ {l : List α} {s i : ℕ}, List.findIdx? p l s = some i → s ≤ i ∧ i < s + l.length := by
  intro l
  induction l with
  | nil => intro s i h; rw [List.findIdx?_nil] at h; exact absurd h (by simp)
  | cons a t ih =>
    intro s i h
    rw [List.findIdx?_cons] at h
    cases hpa : p a with
    | true =>
      rw [hpa, if_pos rfl] at h
      have : s = i := by injection h
      subst this
      exact ⟨le_refl s, by simp⟩
    | false =>
      rw [hpa] at h
      simp only [Bool.false_eq_true, if_false] at h
      have hb := ih h
      refine ⟨by omega, by simp; omega⟩

lemma findIdx?_eq_none_iff_not_mem {l : List String} {s : String} :
    l.findIdx? (· = s) = none ↔ s ∉ l := by
  rw [List.findIdx?_eq_none_iff]
  constructor
  · intro h hmem
    have := h s hmem
    simp at this
  · intro h x hx
    simp only [decide_eq_false_iff_not]
    intro he
    exact h (he ▸ hx)

lemma mem_of_findIdx?_some {l : List String} {s : String} {i : ℕ}
    (h : l.findIdx? (· = s) = some i) : s ∈ l := by
  by_contra hmem
  rw [← findIdx?_eq_none_iff_not_mem] at hmem
  rw [hmem] at h
  exact absurd h (by simp)

lemma recognized_iff {it : RadarItem} :
    recognized it = true ↔ it.ring ∈ RINGS ∧ it.quadrant ∈ QUADRANTS := by
  unfold recognized
  rw [Bool.and_eq_true, List.elem_iff, List.elem_iff]

lemma mapNode_item (R : ℝ) (N k : ℕ) (it : RadarItem) :
    (mapNode R N k it).item = it := by
  unfold mapNode
  cases RINGS.findIdx? (· = it.ring) <;>
    cases QUADRANTS.findIdx? (· = it.quadrant) <;> rfl

lemma mapNode_valid (R : ℝ) (N k : ℕ) (it : RadarItem) :
    (mapNode R N k it).valid = recognized it := by
  unfold mapNode
  cases h1 : RINGS.findIdx? (· = it.ring) with
  | none =>
    have hm : it.ring ∉ RINGS := findIdx?_eq_none_iff_not_mem.mp h1
    cases h2 : QUADRANTS.findIdx? (· = it.quadrant) <;>
      · show false = recognized it
        symm
        rw [Bool.eq_false_iff]
        intro hc
        exact hm (recognized_iff.mp hc).1
  | some i =>
    cases h2 : QUADRANTS.findIdx? (· = it.quadrant) with
    | none =>
      have hm : it.quadrant ∉ QUADRANTS := findIdx?_eq_none_iff_not_mem.mp h2
      show false = recognized it
      symm
      rw [Bool.eq_false_iff]
      intro hc
      exact hm (recognized_iff.mp hc).2
    | some j =>
      show true = recognized it
      symm
      exact recognized_iff.mpr ⟨mem_of_findIdx?_some h1, mem_of_findIdx?_some h2⟩

lemma mapNode_eq_of_found (R : ℝ) (N k : ℕ) (it : RadarItem) {i j : ℕ}
    (h1 : RINGS.findIdx? (· = it.ring) = some i)
    (h2 : QUADRANTS.findIdx? (· = it.quadrant) = some j) :
    mapNode R N k it =
      { item := it, id := k,
        x := Real.cos (targetAngle N k j) *
          ((radiusScale R ((RINGS.length : ℝ) - (i : ℝ))
            + radiusScale R ((RINGS.length : ℝ) - ((i : ℝ) + 1))) / 2),
        y := Real.sin (targetAngle N k j) *
          ((radiusScale R ((RINGS.length : ℝ) - (i : ℝ))
            + radiusScale R ((RINGS.length : ℝ) - ((i : ℝ) + 1))) / 2),
        vx := 0, vy := 0,
        targetX := Real.cos (targetAngle N k j) *
          ((radiusScale R ((RINGS.length : ℝ) - (i : ℝ))
            + radiusScale R ((RINGS.length : ℝ) - ((i : ℝ) + 1))) / 2),
        targetY := Real.sin (targetAngle N k j) *
          ((radiusScale R ((RINGS.length : ℝ) - (i : ℝ))
            + radiusScale R ((RINGS.length : ℝ) - ((i : ℝ) + 1))) / 2),
        targetRadius :=
          (radiusScale R ((RINGS.length : ℝ) - (i : ℝ))
            + radiusScale R ((RINGS.length : ℝ) - ((i : ℝ) + 1))) / 2,
        valid := true } := by
  unfold mapNode
  rw [h1, h2]

lemma mapNode_targetRadius (R : ℝ) (N k : ℕ) (it : RadarItem) {i j : ℕ}
    (h1 : RINGS.findIdx? (· = it.ring) = some i)
    (h2 : QUADRANTS.findIdx? (· = it.quadrant) = some j) :
    (mapNode R N k it).targetRadius =
      (radiusScale R ((RINGS.length : ℝ) - (i : ℝ))
        + radiusScale R ((RINGS.length : ℝ) - ((i : ℝ) + 1))) / 2 := by
  rw [mapNode_eq_of_found R N k it h1 h2]

lemma midpoint_closed_form (R : ℝ) (i : ℕ) :
    (radiusScale R ((RINGS.length : ℝ) - (i : ℝ))
      + radiusScale R ((RINGS.length : ℝ) - ((i : ℝ) + 1))) / 2 =
    R * (2 * (RINGS.length : ℝ) - 2 * (i : ℝ) - 1) / (2 * (RINGS.length : ℝ)) := by
  have h3 : ((RINGS.length : ℕ) : ℝ) = 3 := by norm_num [RINGS]
  unfold radiusScale
  rw [h3]
  ring

lemma prepare_aux (R : ℝ) (N : ℕ) :
    ∀ (s : ℕ) (l : List RadarItem),
      (((List.enumFrom s l).map (fun p => mapNode R N p.1 p.2)).filter
          (fun n => n.valid)).map SimNode.item
        = l.filter recognized := by
  intro s l
  induction l generalizing s with
  | nil => rfl
  | cons a t ih =>
    rw [List.enumFrom_cons, List.map_cons, List.filter_cons, List.filter_cons]
    simp only [mapNode_valid]
    by_cases hr : recognized a = true
    · rw [if_pos hr, if_pos hr, List.map_cons, mapNode_item, ih (s + 1)]
    · rw [if_neg hr, if_neg hr]
      exact ih (s + 1)

lemma prepare_items_eq_filter (R : ℝ) (data : List RadarItem) :
    (prepareNodesForSimulation R data).map SimNode.item = data.filter recognized := by
  unfold prepareNodesForSimulation
  show (((List.enumFrom 0 data).map _).filter _).map _ = _
  exact prepare_aux R data.length 0 data

lemma mem_prepare_recognized {R : ℝ} {data : List RadarItem} {node : SimNode}
    (h : node ∈ prepareNodesForSimulation R data) : recognized node.item = true := by
  have : node.item ∈ (prepareNodesForSimulation R data).map SimNode.item :=
    List.mem_map.mpr ⟨node, h, rfl⟩
  rw [prepare_items_eq_filter] at this
  exact (List.mem_filter.mp this).2

lemma band_mid_bounds (R : ℝ) (hR : 0 < R) (i : ℕ) :
    radiusScale R ((RINGS.length : ℝ) - (i : ℝ) - 1) <
      (radiusScale R ((RINGS.length : ℝ) - (i : ℝ))
        + radiusScale R ((RINGS.length : ℝ) - ((i : ℝ) + 1))) / 2
    ∧ (radiusScale R ((RINGS.length : ℝ) - (i : ℝ))
        + radiusScale R ((RINGS.length : ℝ) - ((i : ℝ) + 1))) / 2
      < radiusScale R ((RINGS.length : ℝ) - (i : ℝ)) := by
  unfold radiusScale
  have h3 : ((RINGS.length : ℕ) : ℝ) = 3 := by norm_num [RINGS]
  simp only [h3]
  constructor
  · have key : ((3 : ℝ) - (i : ℝ)) / 3 * R / 2 + ((3 : ℝ) - ((i : ℝ) + 1)) / 3 * R / 2
        - ((3 : ℝ) - (i : ℝ) - 1) / 3 * R = R / 6 := by ring
    nlinarith [key]
  · have key : ((3 : ℝ) - (i : ℝ)) / 3 * R
        - (((3 : ℝ) - (i : ℝ)) / 3 * R / 2 + ((3 : ℝ) - ((i : ℝ) + 1)) / 3 * R / 2)
        = R / 6 := by ring
    nlinarith [key]

lemma mid_radius_nonneg (R : ℝ) (hR : 0 ≤ R) {i : ℕ} (hi : i < RINGS.length) :
    0 ≤ (radiusScale R ((RINGS.length : ℝ) - (i : ℝ))
      + radiusScale R ((RINGS.length : ℝ) - ((i : ℝ) + 1))) / 2 := by
  unfold radiusScale
  have h3 : ((RINGS.length : ℕ) : ℝ) = 3 := by norm_num [RINGS]
  have hi2 : (i : ℝ) ≤ 2 := by
    have : i ≤ 2 := by
      have := hi
      simp [RINGS] at this
      omega
    exact_mod_cast this
  simp only [h3]
  nlinarith [hR, hi2]

lemma angleSlice_pos : 0 < angleSlice := by
  unfold angleSlice
  have h4 : ((QUADRANTS.length : ℕ) : ℝ) = 4 := by norm_num [QUADRANTS]
  rw [h4]
  positivity

lemma targetAngle_bounds (N k j : ℕ) (hk : k < N) :
    (j : ℝ) * angleSlice - Real.pi / 2 ≤ targetAngle N k j
    ∧ targetAngle N k j ≤ ((j : ℝ) * angleSlice - Real.pi / 2) + angleSlice := by
  have hN : 0 < N := Nat.lt_of_le_of_lt (Nat.zero_le k) hk
  have hw : 0 < angleSlice := angleSlice_pos
  have ht0 : 0 ≤ (k : ℝ) / (N : ℝ) := by positivity
  have ht1 : (k : ℝ) / (N : ℝ) ≤ 1 := by
    rw [div_le_one (by exact_mod_cast hN)]
    exact_mod_cast le_of_lt hk
  simp only [targetAngle]
  constructor
  · nlinarith [hw, ht0]
  · nlinarith [hw, ht0, ht1]

lemma sqrt_cos_sin_sq (a r : ℝ) (hr : 0 ≤ r) :
    Real.sqrt (Real.cos a * r * (Real.cos a * r) + Real.sin a * r * (Real.sin a * r)) = r := by
  have h : Real.cos a * r * (Real.cos a * r) + Real.sin a * r * (Real.sin a * r)
      = r ^ 2 := by
    have hcs := Real.cos_sq_add_sin_sq a
    calc Real.cos a * r * (Real.cos a * r) + Real.sin a * r * (Real.sin a * r)
        = (Real.cos a ^ 2 + Real.sin a ^ 2) * r ^ 2 := by ring
      _ = 1 * r ^ 2 := by rw [hcs]
      _ = r ^ 2 := one_mul _
  rw [h, Real.sqrt_sq hr]

/-- C2: for every item whose status has index `i` in the ring order (length
`n = RINGS.length`) and for every positive drawing radius `R`, the computed
target radius equals the arithmetic midpoint of the band delimited by the
linear-scale values `n - i - 1` and `n - i` mapped over `[0, R]`, which in
closed form is `R * (2n - 2i - 1) / (2n)`. -/
theorem claimC2_ring_band_midpoint (R : ℝ) (N k : ℕ) (item : RadarItem)
    (i j : ℕ) (_hR : 0 < R)
    (h1 : RINGS.findIdx? (· = item.ring) = some i)
    (h2 : QUADRANTS.findIdx? (· = item.quadrant) = some j) :
    (mapNode R N k item).targetRadius
      = (radiusScale R ((RINGS.length : ℝ) - (i : ℝ) - 1)
          + radiusScale R ((RINGS.length : ℝ) - (i : ℝ))) / 2
    ∧ (mapNode R N k item).targetRadius
      = R * (2 * (RINGS.length : ℝ) - 2 * (i : ℝ) - 1)
          / (2 * (RINGS.length : ℝ)) := by
  rw [mapNode_targetRadius R N k item h1 h2]
  constructor
  · unfold radiusScale
    ring
  · exact midpoint_closed_form R i

/-- Witness for C2 at the concrete input `itemAdoptedPlatform` with drawing
radius 3: its ring index is 2 and its target radius is `3 * 1 / 6`. -/
theorem claimC2_witness :
    (0 : ℝ) < 3
    ∧ RINGS.findIdx? (· = itemAdoptedPlatform.ring) = some 2
    ∧ QUADRANTS.findIdx? (· = itemAdoptedPlatform.quadrant) = some 0
    ∧ (mapNode 3 1 0 itemAdoptedPlatform).targetRadius
        = 3 * (2 * (RINGS.length : ℝ) - 2 * ((2 : ℕ) : ℝ) - 1)
            / (2 * (RINGS.length : ℝ)) :=
  ⟨by norm_num, by decide, by decide,
    (claimC2_ring_band_midpoint 3 1 0 itemAdoptedPlatform 2 0 (by norm_num)
      (by decide) (by decide)).2⟩

/-- C3: for every valid item at index `k` of the whole input of length `N`,
with category at slice index `j`, the target angle is
`(j * angleSlice - π/2) + 0.1 * angleSlice + (k / N) * 0.8 * angleSlice`
where `angleSlice = 2π / QUADRANTS.length`, the index `k` being the index
in the entire input sequence, and `targetX = cos(angle) * targetRadius`,
`targetY = sin(angle) * targetRadius`. -/
theorem claimC3_target_angle_formula (R : ℝ) (N k : ℕ) (item : RadarItem)
    (i j : ℕ)
    (h1 : RINGS.findIdx? (· = item.ring) = some i)
    (h2 : QUADRANTS.findIdx? (· = item.quadrant) = some j) :
    targetAngle N k j
      = ((j : ℝ) * angleSlice - Real.pi / 2) + 0.1 * angleSlice
        + ((k : ℝ) / (N : ℝ)) * (0.8 * angleSlice)
    ∧ angleSlice = 2 * Real.pi / (QUADRANTS.length : ℝ)
    ∧ (mapNode R N k item).targetX
        = Real.cos (targetAngle N k j) * (mapNode R N k item).targetRadius
    ∧ (mapNode R N k item).targetY
        = Real.sin (targetAngle N k j) * (mapNode R N k item).targetRadius := by
  refine ⟨by simp only [targetAngle]; ring, by unfold angleSlice; ring, ?_, ?_⟩
  · rw [mapNode_eq_of_found R N k item h1 h2]
  · rw [mapNode_eq_of_found R N k item h1 h2]

/-- Witness for C3 at the concrete input `itemAdoptedPlatform`, index 0 of a
1-item input. -/
theorem claimC3_witness :
    RINGS.findIdx? (· = itemAdoptedPlatform.ring) = some 2
    ∧ QUADRANTS.findIdx? (· = itemAdoptedPlatform.quadrant) = some 0
    ∧ targetAngle 1 0 0
        = (((0 : ℕ) : ℝ) * angleSlice - Real.pi / 2) + 0.1 * angleSlice
          + (((0 : ℕ) : ℝ) / ((1 : ℕ) : ℝ)) * (0.8 * angleSlice) :=
  ⟨by decide, by decide,
    (claimC3_target_angle_formula 3 1 0 itemAdoptedPlatform 2 0
      (by decide) (by decide)).1⟩

/-- C4: the positioned output of `prepareNodesForSimulation` is exactly the
subsequence, in input order, of the items whose status and category are
both recognized; items with an unrecognized status or category appear
nowhere in it, and the empty input yields the empty output (no failure is
possible: the function is total). -/
theorem claimC4_output_subsequence (R : ℝ) (data : List RadarItem) :
    (prepareNodesForSimulation R data).map SimNode.item = data.filter recognized
    ∧ prepareNodesForSimulation R ([] : List RadarItem) = [] :=
  ⟨prepare_items_eq_filter R data, rfl⟩

/-- C5: for every item with a recognized status (index `i`) and category
(index `j`) and every positive drawing radius, the target radius lies
strictly inside the band of scale values `n - i - 1` and `n - i`, and the
target angle lies within the slice `[j * angleSlice - π/2,
j * angleSlice - π/2 + angleSlice]`. -/
theorem claimC5_within_band_and_slice (R : ℝ) (N k : ℕ) (item : RadarItem)
    (i j : ℕ) (hR : 0 < R) (hk : k < N)
    (h1 : RINGS.findIdx? (· = item.ring) = some i)
    (h2 : QUADRANTS.findIdx? (· = item.quadrant) = some j) :
    (radiusScale R ((RINGS.length : ℝ) - (i : ℝ) - 1)
        < (mapNode R N k item).targetRadius
      ∧ (mapNode R N k item).targetRadius
        < radiusScale R ((RINGS.length : ℝ) - (i : ℝ)))
    ∧ ((j : ℝ) * angleSlice - Real.pi / 2 ≤ targetAngle N k j
      ∧ targetAngle N k j ≤ ((j : ℝ) * angleSlice - Real.pi / 2) + angleSlice) := by
  constructor
  · rw [mapNode_targetRadius R N k item h1 h2]
    exact band_mid_bounds R hR i
  · exact targetAngle_bounds N k j hk

/-- Witness for C5 at the concrete input `itemAdoptedPlatform`, radius 3,
index 0 of a 1-item input. -/
theorem claimC5_witness :
    (0 : ℝ) < 3 ∧ 0 < 1
    ∧ RINGS.findIdx? (· = itemAdoptedPlatform.ring) = some 2
    ∧ QUADRANTS.findIdx? (· = itemAdoptedPlatform.quadrant) = some 0
    ∧ ((radiusScale 3 ((RINGS.length : ℝ) - ((2 : ℕ) : ℝ) - 1)
          < (mapNode 3 1 0 itemAdoptedPlatform).targetRadius
        ∧ (mapNode 3 1 0 itemAdoptedPlatform).targetRadius
          < radiusScale 3 ((RINGS.length : ℝ) - ((2 : ℕ) : ℝ)))
      ∧ (((0 : ℕ) : ℝ) * angleSlice - Real.pi / 2 ≤ targetAngle 1 0 0
        ∧ targetAngle 1 0 0
          ≤ (((0 : ℕ) : ℝ) * angleSlice - Real.pi / 2) + angleSlice)) :=
  ⟨by norm_num, by norm_num, by decide, by decide,
    claimC5_within_band_and_slice 3 1 0 itemAdoptedPlatform 2 0 (by norm_num)
      (by norm_num) (by decide) (by decide)⟩

/-- Counterexample to C1 as stated: the item with status `Adopted` and
category `Platforms` (drawing radius 3, alone in the input) is a valid node
whose target radius is `1/2`, which does NOT lie strictly between the
outermost band boundaries `radiusScale 3 (RINGS.length - 1) = 2` and
`radiusScale 3 RINGS.length = 3` — the code sends `Adopted` to the
innermost band, not the outermost one. -/
theorem claimC1_counterexample :
    (mapNode 3 1 0 itemAdoptedPlatform).valid = true
    ∧ (mapNode 3 1 0 itemAdoptedPlatform).targetRadius = 1 / 2
    ∧ ¬ (radiusScale 3 ((RINGS.length : ℝ) - 1)
          < (mapNode 3 1 0 itemAdoptedPlatform).targetRadius
        ∧ (mapNode 3 1 0 itemAdoptedPlatform).targetRadius
          < radiusScale 3 (RINGS.length : ℝ)) := by
  have h3 : ((RINGS.length : ℕ) : ℝ) = 3 := by norm_num [RINGS]
  have h1 : RINGS.findIdx? (· = itemAdoptedPlatform.ring) = some 2 := by decide
  have h2 : QUADRANTS.findIdx? (· = itemAdoptedPlatform.quadrant) = some 0 := by
    decide
  have hR : (mapNode 3 1 0 itemAdoptedPlatform).targetRadius = 1 / 2 := by
    rw [mapNode_targetRadius 3 1 0 itemAdoptedPlatform h1 h2]
    unfold radiusScale
    rw [h3]
    norm_num
  refine ⟨by rw [mapNode_valid]; decide, hR, ?_⟩
  rintro ⟨hlt, -⟩
  rw [hR] at hlt
  unfold radiusScale at hlt
  rw [h3] at hlt
  norm_num at hlt

/-- C1 (amended): for every input item with status `Adopted` and category
`Platforms` (ring order and category order as configured), the computed
target lies in the INNERMOST ring band — target radius strictly between
`radiusScale R 0 = 0` and `radiusScale R 1` — and within the first angular
slice, which starts at 12 o'clock (angle `-π/2` in the y-down screen
coordinates). -/
theorem claimC1_amended (R : ℝ) (N k : ℕ) (item : RadarItem)
    (hR : 0 < R) (hk : k < N)
    (hring : item.ring = "Adopted") (hquad : item.quadrant = "Platforms") :
    (mapNode R N k item).valid = true
    ∧ radiusScale R 0 < (mapNode R N k item).targetRadius
    ∧ (mapNode R N k item).targetRadius < radiusScale R 1
    ∧ (mapNode R N k item).targetX
        = Real.cos (targetAngle N k 0) * (mapNode R N k item).targetRadius
    ∧ (mapNode R N k item).targetY
        = Real.sin (targetAngle N k 0) * (mapNode R N k item).targetRadius
    ∧ (- (Real.pi / 2) ≤ targetAngle N k 0
        ∧ targetAngle N k 0 ≤ - (Real.pi / 2) + angleSlice) := by
  have h3 : ((RINGS.length : ℕ) : ℝ) = 3 := by norm_num [RINGS]
  have h1 : RINGS.findIdx? (· = item.ring) = some 2 := by rw [hring]; decide
  have h2 : QUADRANTS.findIdx? (· = item.quadrant) = some 0 := by rw [hquad]; decide
  have hb := band_mid_bounds R hR 2
  have e1 : (RINGS.length : ℝ) - ((2 : ℕ) : ℝ) - 1 = 0 := by rw [h3]; norm_num
  have e2 : (RINGS.length : ℝ) - ((2 : ℕ) : ℝ) = 1 := by rw [h3]; norm_num
  have e3 : (RINGS.length : ℝ) - (((2 : ℕ) : ℝ) + 1) = 0 := by rw [h3]; norm_num
  rw [e1, e2, e3] at hb
  have hmid := mapNode_targetRadius R N k item h1 h2
  rw [e2, e3] at hmid
  have hang := targetAngle_bounds N k 0 hk
  have e0 : ((0 : ℕ) : ℝ) * angleSlice - Real.pi / 2 = - (Real.pi / 2) := by
    norm_num
  rw [e0] at hang
  refine ⟨?_, ?_, ?_, ?_, ?_, hang⟩
  · rw [mapNode_valid]
    exact recognized_iff.mpr ⟨by rw [hring]; decide, by rw [hquad]; decide⟩
  · rw [hmid]; exact hb.1
  · rw [hmid]; exact hb.2
  · rw [mapNode_eq_of_found R N k item h1 h2]
  · rw [mapNode_eq_of_found R N k item h1 h2]

/-- Witness for the amended C1 at the concrete input `itemAdoptedPlatform`,
radius 3, index 0 of a 1-item input. -/
theorem claimC1_witness :
    (0 : ℝ) < 3 ∧ 0 < 1
    ∧ itemAdoptedPlatform.ring = "Adopted"
    ∧ itemAdoptedPlatform.quadrant = "Platforms"
    ∧ (radiusScale 3 0 < (mapNode 3 1 0 itemAdoptedPlatform).targetRadius
      ∧ (mapNode 3 1 0 itemAdoptedPlatform).targetRadius < radiusScale 3 1) :=
  ⟨by norm_num, by norm_num, rfl, rfl,
    ⟨(claimC1_amended 3 1 0 itemAdoptedPlatform (by norm_num) (by norm_num)
        rfl rfl).2.1,
     (claimC1_amended 3 1 0 itemAdoptedPlatform (by norm_num) (by norm_num)
        rfl rfl).2.2.1⟩⟩

/-- Counterexample to C7 as stated: an item whose category `Foo` is not in
`QUADRANTS` (status recognized) is absent from the list view as well — the
list view groups strictly by the recognized quadrants, so it does impose a
category restriction. -/
theorem claimC7_counterexample :
    QUADRANTS.contains itemFooQuadrant.quadrant = false
    ∧ createListItems [itemFooQuadrant] = []
    ∧ itemFooQuadrant ∉ createListItems [itemFooQuadrant] := by
  refine ⟨by decide, by decide, by decide⟩

/-- C7 (amended): an item with an unrecognized STATUS but recognized
category is silently dropped from radar placement (total functions, no
failure) yet still appears in the list view, which checks the category
only; in particular an item with status `Retired` and category `Platforms`
is absent from the positioned output but present in the list view.  (Items
with an unrecognized category are absent from both views.) -/
theorem claimC7_amended (R : ℝ) (data : List RadarItem) (item : RadarItem)
    (hmem : item ∈ data)
    (hq : item.quadrant ∈ QUADRANTS)
    (hr : item.ring ∉ RINGS) :
    item ∈ createListItems data
    ∧ ∀ node ∈ prepareNodesForSimulation R data, node.item ≠ item := by
  constructor
  · unfold createListItems
    rw [List.mem_flatten]
    refine ⟨data.filter (fun it => it.quadrant = item.quadrant), ?_, ?_⟩
    · exact List.mem_map.mpr ⟨item.quadrant, hq, rfl⟩
    · exact List.mem_filter.mpr ⟨hmem, by simp⟩
  · intro node hnode heq
    have hrec := mem_prepare_recognized hnode
    rw [heq] at hrec
    exact hr (recognized_iff.mp hrec).1

/-- Witness for the amended C7 at the concrete input `itemRetired` (status
`Retired`, category `Platforms`), alone in the input, radius 1. -/
theorem claimC7_witness :
    itemRetired ∈ [itemRetired]
    ∧ itemRetired.quadrant ∈ QUADRANTS
    ∧ itemRetired.ring ∉ RINGS
    ∧ (itemRetired ∈ createListItems [itemRetired]
      ∧ ∀ node ∈ prepareNodesForSimulation 1 [itemRetired],
          node.item ≠ itemRetired) :=
  ⟨by decide, by decide, by decide,
    claimC7_amended 1 [itemRetired] itemRetired (by decide) (by decide)
      (by decide)⟩

/-- C8: a non-positive drawing radius makes `drawRadar` abort the layout
pass — structurally before `prepareNodesForSimulation` or any relaxation is
reached — producing no positioned output; `drawRadar` is a total function,
so nothing is raised. -/
theorem claimC8_nonpositive_radius_aborts (radius : ℝ)
    (data : List RadarItem) (labelPositions : List (ℝ × ℝ))
    (h : radius ≤ 0) :
    drawRadar radius data labelPositions = none := by
  unfold drawRadar
  by_cases hd : data.isEmpty
  · rw [if_pos hd]
  · rw [if_neg hd, if_pos h]

/-- Witness for C8 at radius 0 with a nonempty input. -/
theorem claimC8_witness :
    (0 : ℝ) ≤ 0
    ∧ drawRadar 0 [itemAdoptedPlatform] [] = none :=
  ⟨le_refl 0,
    claimC8_nonpositive_radius_aborts 0 [itemAdoptedPlatform] [] (le_refl 0)⟩

/-- C9: the layout computation is deterministic — the full pass (target
assignment followed by the 200-tick relaxation, no drag) is a pure function
of the input items, the geometry and the label anchors, so two runs on
identical inputs produce identical (exactly equal, in the real-number
model) positions for every item. -/
theorem claimC9_layout_deterministic (data1 data2 : List RadarItem)
    (R1 R2 : ℝ) (lps1 lps2 : List (ℝ × ℝ))
    (hdata : data1 = data2) (hR : R1 = R2) (hlps : lps1 = lps2) :
    layoutPass R1 lps1 data1 = layoutPass R2 lps2 data2 := by
  rw [hdata, hR, hlps]

/-- Witness for C9: two runs on the same 1-item input, radius 3, no
anchors. -/
theorem claimC9_witness :
    [itemAdoptedPlatform] = [itemAdoptedPlatform]
    ∧ (3 : ℝ) = 3
    ∧ ([] : List (ℝ × ℝ)) = []
    ∧ layoutPass 3 [] [itemAdoptedPlatform] = layoutPass 3 [] [itemAdoptedPlatform] :=
  ⟨rfl, rfl, rfl,
    claimC9_layout_deterministic [itemAdoptedPlatform] [itemAdoptedPlatform]
      3 3 [] [] rfl rfl rfl⟩

lemma tickOnce_preserves_target_fields (lps : List (ℝ × ℝ)) (alpha : ℝ)
    (nodes : List SimNode) :
    (tickOnce lps alpha nodes).map (fun d => (d.targetX, d.targetY, d.targetRadius))
      = nodes.map (fun d => (d.targetX, d.targetY, d.targetRadius)) := by
  unfold tickOnce
  simp only [List.map_map]
  rfl

/-- C6: during the collision relaxation, for ANY node at ANY current
position `(d.x, d.y)` — the relaxation ticks move `x`, `y`, `vx`, `vy` but
never modify `targetX`, `targetY`, `targetRadius`
(`tickOnce_preserves_target_fields`), so a mid-relaxation node is exactly a
node whose target fields are those assigned by the target stage — if the
position is within `LAYOUT.ringLabelExclusionRadius` of a ring-label
anchor, the label-avoidance velocity correction is `0.05` times the vector
from the node toward the point whose distance from the center equals the
node's `targetRadius` (the code's `ringRadius = sqrt(targetX² + targetY²)`
equals `targetRadius`) and whose angle is the node's current angle rotated
by `0.1`; that attraction point sits at the ring radius, which lies
strictly inside the node's assigned band, so the correction never points
radially out of the band. -/
theorem claimC6_label_nudge_rotation (R : ℝ) (N k : ℕ) (item : RadarItem)
    (i j : ℕ) (lp : ℝ × ℝ) (d : SimNode)
    (hR : 0 < R)
    (h1 : RINGS.findIdx? (· = item.ring) = some i)
    (h2 : QUADRANTS.findIdx? (· = item.quadrant) = some j)
    (hTX : d.targetX = (mapNode R N k item).targetX)
    (hTY : d.targetY = (mapNode R N k item).targetY)
    (hTRad : d.targetRadius = (mapNode R N k item).targetRadius)
    (hclose : Real.sqrt ((d.x - lp.1) * (d.x - lp.1)
        + (d.y - lp.2) * (d.y - lp.2)) < LAYOUT.ringLabelExclusionRadius) :
    labelNudge d lp
      = ((Real.cos (atan2 d.y d.x + 0.1) * d.targetRadius - d.x) * 0.05,
         (Real.sin (atan2 d.y d.x + 0.1) * d.targetRadius - d.y) * 0.05)
    ∧ Real.sqrt
        (Real.cos (atan2 d.y d.x + 0.1) * d.targetRadius
            * (Real.cos (atan2 d.y d.x + 0.1) * d.targetRadius)
          + Real.sin (atan2 d.y d.x + 0.1) * d.targetRadius
            * (Real.sin (atan2 d.y d.x + 0.1) * d.targetRadius))
        = d.targetRadius
    ∧ radiusScale R ((RINGS.length : ℝ) - (i : ℝ) - 1) < d.targetRadius
    ∧ d.targetRadius < radiusScale R ((RINGS.length : ℝ) - (i : ℝ)) := by
  have hi : i < RINGS.length := by
    have hb := (findIdx?_some_bound h1).2
    simpa using hb
  have hmid := mapNode_targetRadius R N k item h1 h2
  have hnn : 0 ≤ d.targetRadius := by
    rw [hTRad, hmid]
    exact mid_radius_nonneg R (le_of_lt hR) hi
  have hX : d.targetX = Real.cos (targetAngle N k j) * d.targetRadius := by
    rw [hTX, hTRad, mapNode_eq_of_found R N k item h1 h2]
  have hY : d.targetY = Real.sin (targetAngle N k j) * d.targetRadius := by
    rw [hTY, hTRad, mapNode_eq_of_found R N k item h1 h2]
  have hring : Real.sqrt (d.targetX * d.targetX + d.targetY * d.targetY)
      = d.targetRadius := by
    rw [hX, hY]
    exact sqrt_cos_sin_sq (targetAngle N k j) _ hnn
  refine ⟨?_, ?_, ?_, ?_⟩
  · simp only [labelNudge]
    rw [if_pos hclose, hring]
  · exact sqrt_cos_sin_sq (atan2 d.y d.x + 0.1) _ hnn
  · rw [hTRad, hmid]
    exact (band_mid_bounds R hR i).1
  · rw [hTRad, hmid]
    exact (band_mid_bounds R hR i).2

/-- Witness for C6: `displacedNode`, the node of `itemAdoptedPlatform`
(radius 3) moved by the relaxation to the current position `(1, 2)` — away
from its initial position — with a label anchor at `(1, 2)` (distance
0 < 40); the theorem applies, and the attraction point's distance from the
center equals the node's target radius, which lies strictly inside its
band. -/
theorem claimC6_witness :
    (0 : ℝ) < 3
    ∧ displacedNode.targetX = (mapNode 3 1 0 itemAdoptedPlatform).targetX
    ∧ displacedNode.targetY = (mapNode 3 1 0 itemAdoptedPlatform).targetY
    ∧ displacedNode.targetRadius = (mapNode 3 1 0 itemAdoptedPlatform).targetRadius
    ∧ Real.sqrt ((displacedNode.x - 1) * (displacedNode.x - 1)
        + (displacedNode.y - 2) * (displacedNode.y - 2))
        < LAYOUT.ringLabelExclusionRadius
    ∧ (radiusScale 3 ((RINGS.length : ℝ) - ((2 : ℕ) : ℝ) - 1)
        < displacedNode.targetRadius
      ∧ displacedNode.targetRadius
        < radiusScale 3 ((RINGS.length : ℝ) - ((2 : ℕ) : ℝ))) := by
  have hclose : Real.sqrt ((displacedNode.x - 1) * (displacedNode.x - 1)
      + (displacedNode.y - 2) * (displacedNode.y - 2))
      < LAYOUT.ringLabelExclusionRadius := by
    have hz : (displacedNode.x - 1) * (displacedNode.x - 1)
        + (displacedNode.y - 2) * (displacedNode.y - 2) = (0 : ℝ) := by
      show ((1 : ℝ) - 1) * ((1 : ℝ) - 1) + ((2 : ℝ) - 2) * ((2 : ℝ) - 2) = (0 : ℝ)
      norm_num
    rw [hz, Real.sqrt_zero]
    unfold LAYOUT.ringLabelExclusionRadius
    norm_num
  have happ := claimC6_label_nudge_rotation 3 1 0 itemAdoptedPlatform 2 0
    (1, 2) displacedNode (by norm_num) (by decide) (by decide)
    rfl rfl rfl hclose
  exact ⟨by norm_num, rfl, rfl, rfl, hclose, happ.2.2.1, happ.2.2.2⟩

lemma getStringField_default (entries : List (String × YamlValue)) (key : String)
    (h : ∀ s, entries.lookup key ≠ some (YamlValue.str s)) :
    getStringField entries key = "" := by
  unfold getStringField
  cases hl : entries.lookup key with
  | none => rfl
  | some v =>
    cases v with
    | str s => exact absurd hl (h s)
    | bool b => rfl
    | int n => rfl
    | seq xs => rfl
    | map es => rfl
    | null => rfl

lemma getBoolField_default (entries : List (String × YamlValue)) (key : String)
    (h : ∀ b, entries.lookup key ≠ some (YamlValue.bool b)) :
    getBoolField entries key = false := by
  unfold getBoolField
  cases hl : entries.lookup key with
  | none => rfl
  | some v =>
    cases v with
    | str s => rfl
    | bool b => exact absurd hl (h b)
    | int n => rfl
    | seq xs => rfl
    | map es => rfl
    | null => rfl

lemma parseItemsLoop_eq (raw : List YamlValue) :
    ∀ acc, parseItemsLoop raw acc
      = acc ++ (raw.filter isMapping).map (fun v => parseRadarItem (mappingEntries v)) := by
  induction raw with
  | nil => intro acc; simp [parseItemsLoop]
  | cons v t ih =>
    intro acc
    cases v <;> simp [parseItemsLoop, ih, List.filter_cons, isMapping, mappingEntries]

/-- C10: `loadRadarData` returns an error exactly when the data file cannot
be read or its content does not unmarshal into a YAML mapping, and in that
case its data component is the zero-valued `RadarData`; for every
successfully parsed mapping it succeeds, its items being the entries of
the `Items` sequence that are themselves mappings (all others silently
skipped), each parsed field-by-field; and any field that is missing or has
the wrong YAML type gets its zero value (empty string, `false` for the
moved flag). -/
theorem claimC10_loader_characterization
    (file : Option (Option (List (String × YamlValue)))) :
    ((loadRadarData file).2 ≠ none ↔ (file = none ∨ file = some none))
    ∧ ((loadRadarData file).2 ≠ none → (loadRadarData file).1 = ⟨"", []⟩)
    ∧ (∀ m, file = some (some m) →
        (loadRadarData file).2 = none
        ∧ (loadRadarData file).1.items
            = ((itemsEntries m).filter isMapping).map
                (fun v => parseRadarItem (mappingEntries v)))
    ∧ (∀ entries : List (String × YamlValue),
        ((∀ s, entries.lookup ("Label") ≠ some (YamlValue.str s)) →
          (parseRadarItem entries).label = "")
        ∧ ((∀ s, entries.lookup ("Quadrant") ≠ some (YamlValue.str s)) →
          (parseRadarItem entries).quadrant = "")
        ∧ ((∀ s, entries.lookup ("Ring") ≠ some (YamlValue.str s)) →
          (parseRadarItem entries).ring = "")
        ∧ ((∀ b, entries.lookup ("Moved") ≠ some (YamlValue.bool b)) →
          (parseRadarItem entries).moved = false)
        ∧ ((∀ s, entries.lookup ("Description") ≠ some (YamlValue.str s)) →
          (parseRadarItem entries).description = "")
        ∧ ((∀ s, entries.lookup ("Owners") ≠ some (YamlValue.str s)) →
          (parseRadarItem entries).owners = "")) := by
  refine ⟨?_, ?_, ?_, ?_⟩
  · cases file with
    | none => simp [loadRadarData]
    | some f =>
      cases f with
      | none => simp [loadRadarData]
      | some m => simp [loadRadarData]
  · cases file with
    | none => intro _; rfl
    | some f =>
      cases f with
      | none => intro _; rfl
      | some m => intro h; exact absurd rfl h
  · intro m hm
    subst hm
    refine ⟨rfl, ?_⟩
    show (match m.lookup ("Items") with
      | some (YamlValue.seq rawItems) => parseItemsLoop rawItems []
      | _ => []) = _
    unfold itemsEntries
    cases hit : m.lookup ("Items") with
    | none => rfl
    | some v =>
      cases v with
      | str s => rfl
      | bool b => rfl
      | int n => rfl
      | seq xs =>
        show parseItemsLoop xs [] = _
        rw [parseItemsLoop_eq xs]
        simp
      | map es => rfl
      | null => rfl
  · intro entries
    exact ⟨getStringField_default entries ("Label"),
      getStringField_default entries ("Quadrant"),
      getStringField_default entries ("Ring"),
      getBoolField_default entries ("Moved"),
      getStringField_default entries ("Description"),
      getStringField_default entries ("Owners")⟩

/-- Witness for C10 at the concrete parsed mapping `sampleYamlMap`: the
load succeeds and its items are exactly the parsed mapping entries of the
`Items` sequence (the junk scalar is skipped). -/
theorem claimC10_witness :
    ((some (some sampleYamlMap) : Option (Option (List (String × YamlValue))))
        = some (some sampleYamlMap))
    ∧ ((loadRadarData (some (some sampleYamlMap))).2 = none
      ∧ (loadRadarData (some (some sampleYamlMap))).1.items
          = ((itemsEntries sampleYamlMap).filter isMapping).map
              (fun v => parseRadarItem (mappingEntries v))) :=
  ⟨rfl, (claimC10_loader_characterization (some (some sampleYamlMap))).2.2.1
      sampleYamlMap rfl⟩
